import Mathlib

/-!
Verification of the command-resolution and context-construction stage of the
sheldon CLI (`src/cli/mod.rs`), shallowly embedded in Lean 4.

Paths are modelled after Rust `std::path`: a path is an absoluteness flag plus
a list of normal components.  `Path::parent` drops the final component and
returns `none` exactly when there is no component to drop (the root path or
the empty path); in particular a bare one-component relative path such as
`y.toml` has parent `""` (the empty relative path), as documented for
`std::path::Path::parent`.

Process exits and panics are modelled as explicit result constructors:
`process::exit(0)` from the `completions`/`version` leaf actions becomes
`CliResult.exit0`, `log_error` + `process::exit(1)` becomes `CliResult.fatal`
(carrying the `no_color` flag handed to `log_error` and the message), and
`unreachable!()` becomes a `none`/`panicked` outcome.
-/

namespace Sheldon

/-- Model of a Rust `PathBuf`: whether the path is absolute, plus its list of
normal components.  `⟨true, []⟩` is the root path `/`, `⟨false, []⟩` is the
empty path. -/
structure RustPath where
  absolute : Bool
  components : List String
deriving DecidableEq, Repr

/-- Model of `std::path::Path::parent`: strip the final component; `none` for
the root path or the empty path (no component to strip).  A one-component
relative path has parent `⟨false, []⟩`, the empty path, exactly as in Rust. -/
def RustPath.parent (p : RustPath) : Option RustPath :=
  match p.components with
  | [] => none
  | _ => some ⟨p.absolute, p.components.dropLast⟩

/-- Model of `PathBuf::push`/`Path::join` with a single relative component,
which is the only way the source joins paths (a literal such as
`"plugins.toml"`, `"sheldon"`, `"repos"`; the literal `".local/share"` is two
components and is modelled as two successive joins). -/
def RustPath.join (p : RustPath) (s : String) : RustPath :=
  ⟨p.absolute, p.components ++ [s]⟩

/-- Rendering of a path for error messages, as `Path::display` would print it. -/
def RustPath.display (p : RustPath) : String :=
  (if p.absolute then "/" else "") ++ String.intercalate "/" p.components

/-- The ambient process environment consulted by the resolution stage: the
result of `home::home_dir()`, the values of `XDG_CONFIG_HOME` and
`XDG_DATA_HOME` (present even when set to the empty string, as with
`env::var_os`), whether the `auto` color choice resolves to colored output on
this terminal, and the crate release string baked into the binary. -/
structure Env where
  home : Option RustPath
  xdg_config_home : Option RustPath
  xdg_data_home : Option RustPath
  autoIsColor : Bool
  crate_release : String
deriving DecidableEq, Repr

/-- `default_config_dir` from `src/cli/mod.rs`: `XDG_CONFIG_HOME` if set, else
`home/.config`, then push `"sheldon"`. -/
def default_config_dir (env : Env) (home : RustPath) : RustPath :=
  (env.xdg_config_home.getD (home.join ".config")).join "sheldon"

/-- `default_data_dir` from `src/cli/mod.rs`: `XDG_DATA_HOME` if set, else
`home/.local/share`, then push `"sheldon"`. -/
def default_data_dir (env : Env) (home : RustPath) : RustPath :=
  (env.xdg_data_home.getD ((home.join ".local").join "share")).join "sheldon"

/-- `resolve_paths` from `src/cli/mod.rs`.  Errors carry the formatted
message produced by `with_context`. -/
def resolve_paths (env : Env) (home : RustPath)
    (config_dir data_dir config_file : Option RustPath) :
    Except String (RustPath × RustPath × RustPath) :=
  let pair : Except String (RustPath × RustPath) :=
    match config_dir, config_file with
    -- If both are set, then use them as is
    | some dir, some file => .ok (dir, file)
    -- If only the config file is set, then derive the directory from the file
    | none, some file =>
      match file.parent with
      | none =>
        .error
          ("failed to get parent directory of config file path `" ++
            file.display ++ "`")
      | some dir => .ok (dir, file)
    -- If only the config directory is set, then derive the file from the directory
    | some dir, none => .ok (dir, dir.join "plugins.toml")
    -- If neither are set, then use the default config directory and file
    | none, none =>
      let dir := default_config_dir env home
      .ok (dir, dir.join "plugins.toml")
  -- the `?` operator's early return, then the final `Ok` of the function
  match pair with
  | .error e => .error e
  | .ok (config_dir, config_file) =>
    .ok (config_dir, data_dir.getD (default_data_dir env home), config_file)

/-- `LockMode` from the lock module. -/
inductive LockMode where
  | Normal
  | Update
  | Reinstall
deriving DecidableEq, Repr

/-- `LockMode::from_lock_flags`.  The outer `Option` models the
`unreachable!()` panic: `none` is the panic on `(true, true)`; the inner
`Option LockMode` is the Rust return value. -/
def LockMode.from_lock_flags (update reinstall : Bool) :
    Option (Option LockMode) :=
  match update, reinstall with
  | false, false => some (some .Normal)
  | true, false => some (some .Update)
  | false, true => some (some .Reinstall)
  | true, true => none

/-- `LockMode::from_source_flags`.  The outer `Option` models the
`unreachable!()` panic on `(_, true, true)`. -/
def LockMode.from_source_flags (relock update reinstall : Bool) :
    Option (Option LockMode) :=
  match relock, update, reinstall with
  | false, false, false => some none
  | true, false, false => some (some .Normal)
  | _, true, false => some (some .Update)
  | _, false, true => some (some .Reinstall)
  | _, true, true => none

/-- `GitReference` from the config module: a tagged branch, revision or tag
name, as constructed in `EditPlugin::from_add`. -/
inductive GitReference where
  | Branch (s : String)
  | Rev (s : String)
  | Tag (s : String)
deriving DecidableEq, Repr

/-- Modelled from the spec: the `Shell` enumeration lives outside the provided
source (`crate::config::Shell`); it is carried through `Init`/`Completions`
unchanged and never inspected here, so it is modelled opaquely by its name. -/
structure Shell where
  name : String
deriving DecidableEq, Repr

/-- The raw `Add` subcommand options (`cli::raw::Add`), as destructured by
`EditPlugin::from_add`.  Field payloads that the resolution stage never
inspects (URLs, repository coordinates, glob patterns) are modelled as
strings. -/
structure Add where
  name : String
  git : Option String
  gist : Option String
  github : Option String
  remote : Option String
  «local» : Option String
  proto : Option String
  branch : Option String
  rev : Option String
  tag : Option String
  dir : Option String
  uses : Option (List String)
  apply : Option (List String)
  profiles : Option (List String)
  hooks : Option (List (String × String))
deriving DecidableEq, Repr

/-- `RawPlugin` from the config module, with exactly the fields
`EditPlugin::from_add` fills in. -/
structure RawPlugin where
  git : Option String
  gist : Option String
  github : Option String
  remote : Option String
  «local» : Option String
  inline : Option String
  proto : Option String
  reference : Option GitReference
  dir : Option String
  uses : Option (List String)
  apply : Option (List String)
  profiles : Option (List String)
  hooks : Option (List (String × String))
  rest : Option Unit
deriving DecidableEq, Repr

/-- Modelled from the spec: `EditPlugin::from(RawPlugin)` lives outside the
provided source; the spec describes the add path as a field-to-field
destructuring into a plugin specification, so `EditPlugin` is modelled as
carrying the `RawPlugin` value built in `from_add`. -/
structure EditPlugin where
  plugin : RawPlugin
deriving DecidableEq, Repr

/-- `EditPlugin::from_add` from `src/cli/mod.rs`.  The outer `Option` models
the `unreachable!()` panic when two or more of branch/rev/tag are present
(they sit in one mutually exclusive CLI group).  The hooks vector is collected
into an ordered map; its pairs are kept in order here. -/
def EditPlugin.from_add (add : Add) : Option (String × EditPlugin) :=
  let hooks := add.hooks
  let reference : Option (Option GitReference) :=
    match add.branch, add.rev, add.tag with
    | some s, none, none => some (some (GitReference.Branch s))
    | none, some s, none => some (some (GitReference.Rev s))
    | none, none, some s => some (some (GitReference.Tag s))
    | none, none, none => some none
    -- this is unreachable because these three options are in the same
    -- mutually exclusive git-reference CLI group
    | _, _, _ => none
  match reference with
  | none => none
  | some reference =>
    some (add.name,
      ⟨{ git := add.git, gist := add.gist, github := add.github,
         remote := add.remote, «local» := add.«local», inline := none,
         proto := add.proto, reference, dir := add.dir, uses := add.uses,
         apply := add.apply, profiles := add.profiles, hooks, rest := none }⟩)

/-- `Verbosity` from the context module. -/
inductive Verbosity where
  | Quiet
  | Normal
  | Verbose
deriving DecidableEq, Repr

/-- `Output` from the context module: verbosity plus the no-color flag. -/
structure Output where
  verbosity : Verbosity
  no_color : Bool
deriving DecidableEq, Repr

/-- Modelled from the spec: `cli::color_choice` is not in the provided source.
The spec gives the color mode as the tri-state auto/always/never. -/
inductive ColorChoice where
  | auto
  | always
  | never
deriving DecidableEq, Repr

/-- Modelled from the spec: `ColorChoice::is_color` is not in the provided
source; `always`/`never` force the answer and `auto` defers to terminal
detection, supplied here as `Env.autoIsColor`. -/
def ColorChoice.is_color (c : ColorChoice) (env : Env) : Bool :=
  match c with
  | .auto => env.autoIsColor
  | .always => true
  | .never => false

/-- `cli::raw::RawCommand`: the syntactically parsed subcommand. -/
inductive RawCommand where
  | Init (shell : Option Shell)
  | Add (add : Add)
  | Edit
  | Remove (name : String)
  | Lock (update reinstall : Bool)
  | Source (relock update reinstall : Bool)
  | Completions (shell : Shell)
  | Version
deriving DecidableEq, Repr

/-- `cli::raw::RawOpt`: the syntactically parsed global options plus the
subcommand. -/
structure RawOpt where
  quiet : Bool
  non_interactive : Bool
  verbose : Bool
  color : ColorChoice
  data_dir : Option RustPath
  config_dir : Option RustPath
  config_file : Option RustPath
  profile : Option String
  command : RawCommand
deriving DecidableEq, Repr

/-- The resolved `Command` from `src/cli/mod.rs`. -/
inductive Command where
  | Init (shell : Option Shell)
  | Add (name : String) (plugin : EditPlugin)
  | Edit
  | Remove (name : String)
  | Lock
  | Source
deriving DecidableEq, Repr

/-- `Context` from the context module, with exactly the fields
`Opt::from_raw_opt` fills in. -/
structure Context where
  version : String
  home : RustPath
  config_dir : RustPath
  data_dir : RustPath
  config_file : RustPath
  lock_file : RustPath
  clone_dir : RustPath
  download_dir : RustPath
  profile : Option String
  output : Output
  interactive : Bool
  lock_mode : Option LockMode
deriving DecidableEq, Repr

/-- `Opt` from `src/cli/mod.rs`: the resolved context and command. -/
structure Opt where
  ctx : Context
  command : Command
deriving DecidableEq, Repr

/-- Outcome of the subcommand match at the top of `Opt::from_raw_opt`:
either a resolved command together with the `lock_mode` side channel, an
immediate `process::exit(0)` (completions/version), or an `unreachable!()`
panic propagated from a disambiguator. -/
inductive CommandResult where
  | ok (command : Command) (lock_mode : Option LockMode)
  | exit0
  | panicked
deriving DecidableEq, Repr

/-- Outcome of `Opt::from_raw_opt` as a whole: a resolved `Opt`, an exit with
code 0, a fatal error (`log_error(no_color, err)` followed by
`process::exit(1)`, carrying the no-color flag and the message), or a panic. -/
inductive CliResult where
  | ok (opt : Opt)
  | exit0
  | fatal (no_color : Bool) (msg : String)
  | panicked
deriving DecidableEq, Repr

/-- The subcommand match of `Opt::from_raw_opt` (the `let command = match
command` block together with the `lock_mode` assignments). -/
def resolveCommand : RawCommand → CommandResult
  | .Init shell => .ok (.Init shell) none
  | .Add add =>
    match EditPlugin.from_add add with
    | none => .panicked
    | some (name, plugin) => .ok (.Add name plugin) none
  | .Edit => .ok .Edit none
  | .Remove name => .ok (.Remove name) none
  | .Lock update reinstall =>
    match LockMode.from_lock_flags update reinstall with
    | none => .panicked
    | some lock_mode => .ok .Lock lock_mode
  | .Source relock update reinstall =>
    match LockMode.from_source_flags relock update reinstall with
    | none => .panicked
    | some lock_mode => .ok .Source lock_mode
  | .Completions _ => .exit0
  | .Version => .exit0

/-- `Opt::from_raw_opt` from `src/cli/mod.rs`: subcommand resolution, then
verbosity and output policy, then the home-directory lookup (fatal on
failure), then `resolve_paths` (fatal on failure), then the derived lock,
clone and download paths, then the assembled `Context`. -/
def Opt.from_raw_opt (env : Env) (raw : RawOpt) : CliResult :=
  match resolveCommand raw.command with
  | .exit0 => .exit0
  | .panicked => .panicked
  | .ok command lock_mode =>
    let verbosity : Verbosity :=
      if raw.quiet then .Quiet
      else if raw.verbose then .Verbose
      else .Normal
    let output : Output := { verbosity, no_color := !(raw.color.is_color env) }
    match env.home with
    | none =>
      .fatal output.no_color "failed to determine the current user's home directory"
    | some home =>
      match resolve_paths env home raw.config_dir raw.data_dir raw.config_file with
      | .error msg => .fatal output.no_color msg
      | .ok (config_dir, data_dir, config_file) =>
        let lock_file :=
          match raw.profile with
          | some "" => data_dir.join "plugins.lock"
          | none => data_dir.join "plugins.lock"
          | some p => data_dir.join ("plugins." ++ p ++ ".lock")
        let clone_dir := data_dir.join "repos"
        let download_dir := data_dir.join "downloads"
        .ok
          { ctx :=
              { version := env.crate_release, home, config_dir, data_dir,
                config_file, lock_file, clone_dir, download_dir,
                profile := raw.profile, output,
                interactive := !raw.non_interactive, lock_mode },
            command }

/-- The `Context` value `Opt::from_raw_opt` assembles once subcommand
resolution, the home lookup and `resolve_paths` have all succeeded.  This is
an abbreviation used only to state the inversion lemma below. -/
def assembledContext (env : Env) (raw : RawOpt) (lock_mode : Option LockMode)
    (home config_dir data_dir config_file : RustPath) : Context :=
  { version := env.crate_release, home, config_dir, data_dir, config_file,
    lock_file :=
      match raw.profile with
      | some "" => data_dir.join "plugins.lock"
      | none => data_dir.join "plugins.lock"
      | some p => data_dir.join ("plugins." ++ p ++ ".lock"),
    clone_dir := data_dir.join "repos",
    download_dir := data_dir.join "downloads",
    profile := raw.profile,
    output :=
      { verbosity :=
          if raw.quiet then .Quiet
          else if raw.verbose then .Verbose
          else .Normal,
        no_color := !(raw.color.is_color env) },
    interactive := !raw.non_interactive,
    lock_mode }

/-- Inversion for a successful run of `Opt::from_raw_opt`: a resolved `Opt`
arises exactly from a resolved subcommand, a found home directory, and
successful path resolution, and its context is the assembled record. -/
theorem from_raw_opt_ok_inv (env : Env) (raw : RawOpt) (opt : Opt)
    (h : Opt.from_raw_opt env raw = .ok opt) :
    ∃ command lock_mode home config_dir data_dir config_file,
      resolveCommand raw.command = .ok command lock_mode ∧
      env.home = some home ∧
      resolve_paths env home raw.config_dir raw.data_dir raw.config_file =
        .ok (config_dir, data_dir, config_file) ∧
      opt =
        { ctx := assembledContext env raw lock_mode home config_dir data_dir
            config_file,
          command } := by
  unfold Opt.from_raw_opt at h
  cases hc : resolveCommand raw.command with
  | exit0 => rw [hc] at h; exact CliResult.noConfusion h
  | panicked => rw [hc] at h; exact CliResult.noConfusion h
  | ok command lock_mode =>
    rw [hc] at h
    simp only [] at h
    cases hh : env.home with
    | none => rw [hh] at h; simp only [] at h; exact CliResult.noConfusion h
    | some home =>
      rw [hh] at h
      simp only [] at h
      cases hp : resolve_paths env home raw.config_dir raw.data_dir
          raw.config_file with
      | error msg => rw [hp] at h; simp only [] at h; exact CliResult.noConfusion h
      | ok paths =>
        obtain ⟨config_dir, data_dir, config_file⟩ := paths
        rw [hp] at h
        simp only [] at h
        refine ⟨command, lock_mode, home, config_dir, data_dir, config_file,
          rfl, rfl, hp, ?_⟩
        cases h
        rfl

/-! Concrete fixtures shared by witnesses and counterexamples. -/

/-- A concrete environment with a resolvable home directory and neither XDG
variable set. -/
def env0 : Env :=
  { home := some ⟨true, ["home", "user"]⟩, xdg_config_home := none,
    xdg_data_home := none, autoIsColor := true, crate_release := "0.8.5" }

/-- The home directory of `env0`. -/
def home0 : RustPath := ⟨true, ["home", "user"]⟩

/-- C3: lock-mode disambiguation matches the spec tables exhaustively.  For
the `lock` subcommand `(update, reinstall)`: `(false,false)` yields `Normal`,
`(true,false)` yields `Update`, `(false,true)` yields `Reinstall`, and the
returned mode is never absent; for the `source` subcommand
`(relock, update, reinstall)`: all clear yields absent, relock alone yields
`Normal`, update set (regardless of relock) yields `Update`, reinstall set
(regardless of relock) yields `Reinstall`; setting both update and reinstall
hits the `unreachable!()` panic of either disambiguator (the `none` outcome
of the model), i.e. those combinations are unreachable under the parser
contract. -/
theorem C3_lock_mode_tables :
    (LockMode.from_lock_flags false false = some (some .Normal)) ∧
    (LockMode.from_lock_flags true false = some (some .Update)) ∧
    (LockMode.from_lock_flags false true = some (some .Reinstall)) ∧
    (∀ update reinstall : Bool,
      LockMode.from_lock_flags update reinstall ≠ some none) ∧
    (LockMode.from_source_flags false false false = some none) ∧
    (LockMode.from_source_flags true false false = some (some .Normal)) ∧
    (∀ relock : Bool,
      LockMode.from_source_flags relock true false = some (some .Update)) ∧
    (∀ relock : Bool,
      LockMode.from_source_flags relock false true = some (some .Reinstall)) ∧
    (LockMode.from_lock_flags true true = none) ∧
    (∀ relock : Bool,
      LockMode.from_source_flags relock true true = none) := by
  decide

/-- C1: the `(config_dir, config_file)` pair follows the four-case precedence
table of `resolve_paths`: both explicit are used verbatim; only config-file
explicit derives the directory as the file's parent; only config-dir explicit
derives the file as the directory joined with `plugins.toml`; neither
explicit uses `XDG_CONFIG_HOME` (if set, else `home/.config`) joined with
`sheldon` as the directory, and that directory joined with `plugins.toml` as
the file. -/
theorem C1_config_paths_table (env : Env) (home dir file parentDir : RustPath)
    (dd : Option RustPath) (hpar : file.parent = some parentDir) :
    (resolve_paths env home (some dir) dd (some file) =
      .ok (dir, dd.getD (default_data_dir env home), file)) ∧
    (resolve_paths env home none dd (some file) =
      .ok (parentDir, dd.getD (default_data_dir env home), file)) ∧
    (resolve_paths env home (some dir) dd none =
      .ok (dir, dd.getD (default_data_dir env home),
        dir.join "plugins.toml")) ∧
    (∀ xdg, env.xdg_config_home = some xdg →
      resolve_paths env home none dd none =
        .ok (xdg.join "sheldon", dd.getD (default_data_dir env home),
          (xdg.join "sheldon").join "plugins.toml")) ∧
    (env.xdg_config_home = none →
      resolve_paths env home none dd none =
        .ok ((home.join ".config").join "sheldon",
          dd.getD (default_data_dir env home),
          ((home.join ".config").join "sheldon").join "plugins.toml")) := by
  refine ⟨rfl, ?_, rfl, ?_, ?_⟩
  · unfold resolve_paths
    simp only []
    rw [hpar]
  · intro xdg hx
    unfold resolve_paths default_config_dir
    rw [hx]
    rfl
  · intro hx
    unfold resolve_paths default_config_dir
    rw [hx]
    rfl

/-- Witness for C1: the table evaluated at a concrete environment and
concrete explicit paths `/a` and `/b/c.toml`. -/
theorem C1_config_paths_table_witness :
    (RustPath.parent ⟨true, ["b", "c.toml"]⟩ = some ⟨true, ["b"]⟩) ∧
    ((resolve_paths env0 home0 (some ⟨true, ["a"]⟩) none
        (some ⟨true, ["b", "c.toml"]⟩) =
      .ok (⟨true, ["a"]⟩,
        ⟨true, ["home", "user", ".local", "share", "sheldon"]⟩,
        ⟨true, ["b", "c.toml"]⟩)) ∧
    (resolve_paths env0 home0 none none (some ⟨true, ["b", "c.toml"]⟩) =
      .ok (⟨true, ["b"]⟩,
        ⟨true, ["home", "user", ".local", "share", "sheldon"]⟩,
        ⟨true, ["b", "c.toml"]⟩)) ∧
    (resolve_paths env0 home0 (some ⟨true, ["a"]⟩) none none =
      .ok (⟨true, ["a"]⟩,
        ⟨true, ["home", "user", ".local", "share", "sheldon"]⟩,
        ⟨true, ["a", "plugins.toml"]⟩)) ∧
    (∀ xdg, env0.xdg_config_home = some xdg →
      resolve_paths env0 home0 none none none =
        .ok (xdg.join "sheldon",
          ⟨true, ["home", "user", ".local", "share", "sheldon"]⟩,
          (xdg.join "sheldon").join "plugins.toml")) ∧
    (env0.xdg_config_home = none →
      resolve_paths env0 home0 none none none =
        .ok (⟨true, ["home", "user", ".config", "sheldon"]⟩,
          ⟨true, ["home", "user", ".local", "share", "sheldon"]⟩,
          ⟨true, ["home", "user", ".config", "sheldon", "plugins.toml"]⟩))) :=
  ⟨rfl, C1_config_paths_table env0 home0 ⟨true, ["a"]⟩ ⟨true, ["b", "c.toml"]⟩
    ⟨true, ["b"]⟩ none rfl⟩

/-- C2 counterexample: with only the config file explicit and the bare
filename `y.toml`, `resolve_paths` does not fail.  Rust's `Path::parent` on a
one-component relative path is `Some("")`, so resolution succeeds, silently
using the empty path as the config directory. -/
theorem C2_bare_filename_counterexample :
    resolve_paths env0 home0 none none (some ⟨false, ["y.toml"]⟩) =
      .ok (⟨false, []⟩,
        ⟨true, ["home", "user", ".local", "share", "sheldon"]⟩,
        ⟨false, ["y.toml"]⟩) := rfl

/-- C2 (amended): when only the config file is explicit, `resolve_paths`
fails with the `PathError` message identifying the offending path exactly
when the path has no parent in the `std::path` sense, i.e. it has no
component at all (the root path or the empty path); a bare filename has
parent `""` (the empty relative path), so it resolves successfully with the
empty path as the derived config directory rather than failing. -/
theorem C2_parent_failure_characterization (env : Env) (home file : RustPath)
    (dd : Option RustPath) :
    (resolve_paths env home none dd (some file) =
      (match file.parent with
       | none =>
         .error ("failed to get parent directory of config file path `" ++
           file.display ++ "`")
       | some dir =>
         .ok (dir, dd.getD (default_data_dir env home), file))) ∧
    (file.parent = none ↔ file.components = []) ∧
    (∀ nm : String, RustPath.parent ⟨false, [nm]⟩ = some ⟨false, []⟩) := by
  obtain ⟨abs, comps⟩ := file
  refine ⟨?_, ?_, fun nm => rfl⟩
  · cases comps with
    | nil => rfl
    | cons a l => rfl
  · cases comps with
    | nil => simp [RustPath.parent]
    | cons a l => simp [RustPath.parent]

/-- The number of present options among the branch/rev/tag trio. -/
def presentCount (branch rev tag : Option String) : Nat :=
  (if branch.isSome then 1 else 0) + (if rev.isSome then 1 else 0) +
    (if tag.isSome then 1 else 0)

/-- C5: under the parser-contract precondition that at most one of branch,
rev and tag is present, `EditPlugin::from_add` succeeds and maps the present
field 1:1 to the corresponding tagged `GitReference` (`Branch`, `Rev`, `Tag`
respectively), none present maps to absent; re-resolving the same raw input
yields the same tagged value; and any input with two or more present hits the
`unreachable!()` internal-invariant panic (the `none` outcome of the model)
rather than producing a user-facing error value. -/
theorem C5_git_reference_disambiguation (add : Add)
    (h : presentCount add.branch add.rev add.tag ≤ 1) :
    (∃ p : EditPlugin, EditPlugin.from_add add = some (add.name, p) ∧
        p.plugin.reference =
          (match add.branch, add.rev, add.tag with
           | some s, _, _ => some (GitReference.Branch s)
           | _, some s, _ => some (GitReference.Rev s)
           | _, _, some s => some (GitReference.Tag s)
           | none, none, none => none)) ∧
    (∀ add' : Add, add' = add →
        EditPlugin.from_add add' = EditPlugin.from_add add) ∧
    (∀ add' : Add, 2 ≤ presentCount add'.branch add'.rev add'.tag →
        EditPlugin.from_add add' = none) := by
  refine ⟨?_, fun add' he => by rw [he], ?_⟩
  · obtain ⟨name, git, gist, github, remote, lcl, proto, branch, rev, tag,
      dir, uses, apl, profiles, hooks⟩ := add
    cases branch <;> cases rev <;> cases tag <;>
      first
        | exact ⟨_, rfl, rfl⟩
        | simp [presentCount] at h
  · intro add' h2
    obtain ⟨name, git, gist, github, remote, lcl, proto, branch, rev, tag,
      dir, uses, apl, profiles, hooks⟩ := add'
    cases branch <;> cases rev <;> cases tag <;>
      first
        | rfl
        | simp [presentCount] at h2

/-- A concrete `add` invocation:
`add foo --github user/repo --branch main --use "*.plugin.zsh"`. -/
def add0 : Add :=
  { name := "foo", git := none, gist := none, github := some "user/repo",
    remote := none, «local» := none, proto := none, branch := some "main",
    rev := none, tag := none, dir := none, uses := some ["*.plugin.zsh"],
    apply := none, profiles := none, hooks := none }

/-- Witness for C5 at the concrete invocation `add0`: one present option
(`--branch main`) yields the `Branch` tag. -/
theorem C5_git_reference_disambiguation_witness :
    presentCount add0.branch add0.rev add0.tag ≤ 1 ∧
    ((∃ p : EditPlugin, EditPlugin.from_add add0 = some (add0.name, p) ∧
        p.plugin.reference = some (GitReference.Branch "main")) ∧
    (∀ add' : Add, add' = add0 →
        EditPlugin.from_add add' = EditPlugin.from_add add0) ∧
    (∀ add' : Add, 2 ≤ presentCount add'.branch add'.rev add'.tag →
        EditPlugin.from_add add' = none)) :=
  ⟨by decide, C5_git_reference_disambiguation add0 (by decide)⟩

/-- C6: the resolved data directory is the explicit data-dir value verbatim
when given, otherwise `XDG_DATA_HOME` joined with `sheldon` when that
variable is set, else `home/.local/share` joined with `sheldon`. -/
theorem C6_data_dir_resolution (env : Env) (home : RustPath)
    (cd cf dd : Option RustPath) (config_dir data_dir config_file : RustPath)
    (h : resolve_paths env home cd dd cf =
      .ok (config_dir, data_dir, config_file)) :
    data_dir =
      (match dd with
       | some explicit => explicit
       | none =>
         match env.xdg_data_home with
         | some x => x.join "sheldon"
         | none => ((home.join ".local").join "share").join "sheldon") := by
  have hd : data_dir = dd.getD (default_data_dir env home) := by
    cases cd with
    | some dir =>
      cases cf with
      | some file =>
        have h' : (Except.ok (dir, dd.getD (default_data_dir env home), file) :
            Except String (RustPath × RustPath × RustPath)) =
            .ok (config_dir, data_dir, config_file) := h
        simp only [Except.ok.injEq, Prod.mk.injEq] at h'
        exact h'.2.1.symm
      | none =>
        have h' : (Except.ok (dir, dd.getD (default_data_dir env home),
            dir.join "plugins.toml") :
            Except String (RustPath × RustPath × RustPath)) =
            .ok (config_dir, data_dir, config_file) := h
        simp only [Except.ok.injEq, Prod.mk.injEq] at h'
        exact h'.2.1.symm
    | none =>
      cases cf with
      | none =>
        have h' : (Except.ok (default_config_dir env home,
            dd.getD (default_data_dir env home),
            (default_config_dir env home).join "plugins.toml") :
            Except String (RustPath × RustPath × RustPath)) =
            .ok (config_dir, data_dir, config_file) := h
        simp only [Except.ok.injEq, Prod.mk.injEq] at h'
        exact h'.2.1.symm
      | some file =>
        unfold resolve_paths at h
        simp only [] at h
        cases hp : file.parent with
        | none => rw [hp] at h; exact Except.noConfusion h
        | some dir =>
          rw [hp] at h
          simp only [Except.ok.injEq, Prod.mk.injEq] at h
          exact h.2.1.symm
  subst hd
  cases dd with
  | some x => rfl
  | none =>
    cases hx : env.xdg_data_home with
    | some x => simp [default_data_dir, hx]
    | none => simp [default_data_dir, hx]

/-- Witness for C6 at `env0` with no explicit paths: the data directory is
`home/.local/share/sheldon`. -/
theorem C6_data_dir_resolution_witness :
    resolve_paths env0 home0 none none none =
      .ok (⟨true, ["home", "user", ".config", "sheldon"]⟩,
        ⟨true, ["home", "user", ".local", "share", "sheldon"]⟩,
        ⟨true, ["home", "user", ".config", "sheldon", "plugins.toml"]⟩) ∧
    (⟨true, ["home", "user", ".local", "share", "sheldon"]⟩ : RustPath) =
      ((home0.join ".local").join "share").join "sheldon" :=
  ⟨rfl, C6_data_dir_resolution env0 home0 none none none
    ⟨true, ["home", "user", ".config", "sheldon"]⟩
    ⟨true, ["home", "user", ".local", "share", "sheldon"]⟩
    ⟨true, ["home", "user", ".config", "sheldon", "plugins.toml"]⟩ rfl⟩

/-- A concrete raw invocation of the `edit` subcommand with all defaults. -/
def rawE : RawOpt :=
  { quiet := false, non_interactive := false, verbose := false,
    color := .never, data_dir := none, config_dir := none,
    config_file := none, profile := none, command := .Edit }

/-- The resolved `Opt` for `rawE` under `env0`. -/
def optE : Opt :=
  { ctx :=
      { version := "0.8.5",
        home := ⟨true, ["home", "user"]⟩,
        config_dir := ⟨true, ["home", "user", ".config", "sheldon"]⟩,
        data_dir := ⟨true, ["home", "user", ".local", "share", "sheldon"]⟩,
        config_file :=
          ⟨true, ["home", "user", ".config", "sheldon", "plugins.toml"]⟩,
        lock_file :=
          ⟨true, ["home", "user", ".local", "share", "sheldon", "plugins.lock"]⟩,
        clone_dir :=
          ⟨true, ["home", "user", ".local", "share", "sheldon", "repos"]⟩,
        download_dir :=
          ⟨true, ["home", "user", ".local", "share", "sheldon", "downloads"]⟩,
        profile := none,
        output := { verbosity := .Normal, no_color := true },
        interactive := true, lock_mode := none },
    command := .Edit }

/-- A concrete raw invocation: `--quiet --non-interactive --color always
--profile work source --update`. -/
def rawW : RawOpt :=
  { quiet := true, non_interactive := true, verbose := false,
    color := .always, data_dir := none, config_dir := none,
    config_file := none, profile := some "work",
    command := .Source false true false }

/-- The resolved `Opt` for `rawW` under `env0`. -/
def optW : Opt :=
  { ctx :=
      { version := "0.8.5",
        home := ⟨true, ["home", "user"]⟩,
        config_dir := ⟨true, ["home", "user", ".config", "sheldon"]⟩,
        data_dir := ⟨true, ["home", "user", ".local", "share", "sheldon"]⟩,
        config_file :=
          ⟨true, ["home", "user", ".config", "sheldon", "plugins.toml"]⟩,
        lock_file :=
          ⟨true,
            ["home", "user", ".local", "share", "sheldon", "plugins.work.lock"]⟩,
        clone_dir :=
          ⟨true, ["home", "user", ".local", "share", "sheldon", "repos"]⟩,
        download_dir :=
          ⟨true, ["home", "user", ".local", "share", "sheldon", "downloads"]⟩,
        profile := some "work",
        output := { verbosity := .Quiet, no_color := false },
        interactive := false, lock_mode := some .Update },
    command := .Source }

/-- An environment whose home-directory lookup fails. -/
def envN : Env :=
  { home := none, xdg_config_home := none, xdg_data_home := none,
    autoIsColor := true, crate_release := "0.8.5" }

/-- Helper: when subcommand resolution succeeds but the home lookup fails,
`Opt::from_raw_opt` is the fatal exit-1 outcome with the fixed message and
the already-computed no-color policy. -/
theorem from_raw_opt_home_none (env : Env) (raw : RawOpt) (command : Command)
    (lock_mode : Option LockMode)
    (hcmd : resolveCommand raw.command = .ok command lock_mode)
    (hhome : env.home = none) :
    Opt.from_raw_opt env raw =
      .fatal (!(raw.color.is_color env))
        "failed to determine the current user's home directory" := by
  unfold Opt.from_raw_opt
  rw [hcmd]
  simp only []
  rw [hhome]

/-- C4: in every constructed context, the lock file is the data directory
joined with `plugins.lock` when the profile is absent or the empty string
and with `plugins.<profile>.lock` for a non-empty profile, the clone
directory is the data directory joined with `repos`, and the download
directory is the data directory joined with `downloads` — for every raw
input, so no flag overrides them. -/
theorem C4_derived_paths (env : Env) (raw : RawOpt) (opt : Opt)
    (h : Opt.from_raw_opt env raw = .ok opt) :
    (opt.ctx.lock_file =
      (match raw.profile with
       | none => opt.ctx.data_dir.join "plugins.lock"
       | some p =>
         if p = "" then opt.ctx.data_dir.join "plugins.lock"
         else opt.ctx.data_dir.join ("plugins." ++ p ++ ".lock"))) ∧
    opt.ctx.clone_dir = opt.ctx.data_dir.join "repos" ∧
    opt.ctx.download_dir = opt.ctx.data_dir.join "downloads" := by
  obtain ⟨c, lm, home, cdir, ddir, cfile, hc, hh, hp, rfl⟩ :=
    from_raw_opt_ok_inv env raw opt h
  obtain ⟨quiet, ni, verbose, color, odd, ocd, ocf, prof, cmd⟩ := raw
  refine ⟨?_, rfl, rfl⟩
  cases prof with
  | none => rfl
  | some p =>
    by_cases hps : p = ""
    · subst hps; rfl
    · show (match (some p : Option String) with
          | some "" => ddir.join "plugins.lock"
          | none => ddir.join "plugins.lock"
          | some q => ddir.join ("plugins." ++ q ++ ".lock")) =
        if p = "" then ddir.join "plugins.lock"
        else ddir.join ("plugins." ++ p ++ ".lock")
      rw [if_neg hps]
      split
      · rename_i heq
        exact absurd (Option.some.inj heq) hps
      · rename_i heq
        exact Option.noConfusion heq
      · rename_i q hne heq
        cases Option.some.inj heq
        rfl

/-- Witness for C4 at `env0` and `rawW`: profile `work` yields a lock file
ending in `plugins.work.lock`, with clone and download directories `repos`
and `downloads` under the data directory. -/
theorem C4_derived_paths_witness :
    Opt.from_raw_opt env0 rawW = .ok optW ∧
    ((optW.ctx.lock_file =
      (match rawW.profile with
       | none => optW.ctx.data_dir.join "plugins.lock"
       | some p =>
         if p = "" then optW.ctx.data_dir.join "plugins.lock"
         else optW.ctx.data_dir.join ("plugins." ++ p ++ ".lock"))) ∧
    optW.ctx.clone_dir = optW.ctx.data_dir.join "repos" ∧
    optW.ctx.download_dir = optW.ctx.data_dir.join "downloads") :=
  ⟨rfl, C4_derived_paths env0 rawW optW rfl⟩

/-- C7: if the home-directory lookup fails (and the subcommand actually
reaches that lookup, i.e. it resolved to a command rather than exiting as a
completions/version leaf action), `Opt::from_raw_opt` produces the fatal
exit-1 outcome carrying the message "failed to determine the current user's
home directory" and the already-computed color policy; no `Opt`/`Context`
value is ever constructed; and the outcome is unchanged under arbitrary path
flags, i.e. the failure precedes any path resolution. -/
theorem C7_home_lookup_failure (env : Env) (raw : RawOpt) (command : Command)
    (lock_mode : Option LockMode)
    (hcmd : resolveCommand raw.command = .ok command lock_mode)
    (hhome : env.home = none) :
    (Opt.from_raw_opt env raw =
      .fatal (!(raw.color.is_color env))
        "failed to determine the current user's home directory") ∧
    (∀ opt : Opt, Opt.from_raw_opt env raw ≠ .ok opt) ∧
    (∀ cd dd cf : Option RustPath,
      Opt.from_raw_opt env
          { raw with config_dir := cd, data_dir := dd, config_file := cf } =
        .fatal (!(raw.color.is_color env))
          "failed to determine the current user's home directory") := by
  refine ⟨from_raw_opt_home_none env raw command lock_mode hcmd hhome,
    ?_, ?_⟩
  · intro opt hok
    obtain ⟨c, lm, home, cdir, ddir, cfile, hc, hh, hp, -⟩ :=
      from_raw_opt_ok_inv env raw opt hok
    rw [hhome] at hh
    exact Option.noConfusion hh
  · intro cd dd cf
    exact from_raw_opt_home_none env
      { raw with config_dir := cd, data_dir := dd, config_file := cf }
      command lock_mode hcmd hhome

/-- Witness for C7 at the home-less environment `envN` and the concrete
`edit` invocation `rawE`. -/
theorem C7_home_lookup_failure_witness :
    resolveCommand rawE.command = .ok Command.Edit none ∧
    envN.home = none ∧
    ((Opt.from_raw_opt envN rawE =
      .fatal true "failed to determine the current user's home directory") ∧
    (∀ opt : Opt, Opt.from_raw_opt envN rawE ≠ .ok opt) ∧
    (∀ cd dd cf : Option RustPath,
      Opt.from_raw_opt envN
          { rawE with config_dir := cd, data_dir := dd, config_file := cf } =
        .fatal true
          "failed to determine the current user's home directory")) :=
  ⟨rfl, rfl, C7_home_lookup_failure envN rawE Command.Edit none rfl rfl⟩

/-- C8: the verbosity of every constructed context follows the precedence
quiet over verbose over normal: quiet set gives `Quiet` regardless of the
verbose flag, otherwise verbose set gives `Verbose`, otherwise `Normal`. -/
theorem C8_verbosity_precedence (env : Env) (raw : RawOpt) (opt : Opt)
    (h : Opt.from_raw_opt env raw = .ok opt) :
    (raw.quiet = true → opt.ctx.output.verbosity = .Quiet) ∧
    (raw.quiet = false → raw.verbose = true →
      opt.ctx.output.verbosity = .Verbose) ∧
    (raw.quiet = false → raw.verbose = false →
      opt.ctx.output.verbosity = .Normal) := by
  obtain ⟨c, lm, home, cdir, ddir, cfile, hc, hh, hp, rfl⟩ :=
    from_raw_opt_ok_inv env raw opt h
  refine ⟨fun hq => ?_, fun hq hv => ?_, fun hq hv => ?_⟩
  · simp [assembledContext, hq]
  · simp [assembledContext, hq, hv]
  · simp [assembledContext, hq, hv]

/-- Witness for C8 at `env0` and the quiet invocation `rawW`. -/
theorem C8_verbosity_precedence_witness :
    Opt.from_raw_opt env0 rawW = .ok optW ∧
    ((rawW.quiet = true → optW.ctx.output.verbosity = .Quiet) ∧
    (rawW.quiet = false → rawW.verbose = true →
      optW.ctx.output.verbosity = .Verbose) ∧
    (rawW.quiet = false → rawW.verbose = false →
      optW.ctx.output.verbosity = .Normal)) :=
  ⟨rfl, C8_verbosity_precedence env0 rawW optW rfl⟩

/-- C9: every constructed context for an `init`, `add`, `edit` or `remove`
invocation has no lock mode; only the `lock` and `source` subcommands ever
set one. -/
theorem C9_non_locking_commands (env : Env) (raw : RawOpt) (opt : Opt)
    (h : Opt.from_raw_opt env raw = .ok opt)
    (hcmd : (∃ s, raw.command = RawCommand.Init s) ∨
      (∃ a, raw.command = RawCommand.Add a) ∨
      raw.command = RawCommand.Edit ∨
      (∃ n, raw.command = RawCommand.Remove n)) :
    opt.ctx.lock_mode = none := by
  obtain ⟨c, lm, home, cdir, ddir, cfile, hc, hh, hp, rfl⟩ :=
    from_raw_opt_ok_inv env raw opt h
  have hlm : lm = none := by
    rcases hcmd with ⟨s, hs⟩ | ⟨a, hs⟩ | hs | ⟨n, hs⟩ <;> rw [hs] at hc
    · cases hc; rfl
    · cases hfa : EditPlugin.from_add a with
      | none =>
        rw [resolveCommand, hfa] at hc
        exact CommandResult.noConfusion hc
      | some pr =>
        obtain ⟨nm, pl⟩ := pr
        rw [resolveCommand, hfa] at hc
        cases hc; rfl
    · cases hc; rfl
    · cases hc; rfl
  exact hlm

/-- Witness for C9 at `env0` and the `edit` invocation `rawE`. -/
theorem C9_non_locking_commands_witness :
    Opt.from_raw_opt env0 rawE = .ok optE ∧
    rawE.command = RawCommand.Edit ∧
    optE.ctx.lock_mode = none :=
  ⟨rfl, rfl, C9_non_locking_commands env0 rawE optE rfl
    (Or.inr (Or.inr (Or.inl rfl)))⟩

/-- C10: in every constructed context, the interactive flag is exactly the
negation of the raw non-interactive flag. -/
theorem C10_interactive_negation (env : Env) (raw : RawOpt) (opt : Opt)
    (h : Opt.from_raw_opt env raw = .ok opt) :
    opt.ctx.interactive = !raw.non_interactive := by
  obtain ⟨c, lm, home, cdir, ddir, cfile, hc, hh, hp, rfl⟩ :=
    from_raw_opt_ok_inv env raw opt h
  rfl

/-- Witness for C10 at `env0` and the non-interactive invocation `rawW`. -/
theorem C10_interactive_negation_witness :
    Opt.from_raw_opt env0 rawW = .ok optW ∧
    optW.ctx.interactive = !rawW.non_interactive :=
  ⟨rfl, C10_interactive_negation env0 rawW optW rfl⟩

end Sheldon
